import Mathlib

/-!
Verification of the smtpbis SMTP session engine (`src/server.rs`, `src/reply.rs`).

The Rust source is shallowly embedded: bytes are `Nat`, reply text is
`List Char`, the pluggable `Handler` trait is an oracle structure holding the
responses the handler would give, and the socket / shutdown-signal races are
resolved by explicit oracle booleans.  Handler invocations and socket sends
are recorded in an event trace so that theorems can speak about which
callbacks ran and which replies were written.
-/

namespace Smtpbis

/-- Enhanced status code, `reply.rs` struct `EnhancedCode(u8, u16, u16)`. -/
structure EnhancedCode where
  class' : Nat
  subject : Nat
  detail : Nat
deriving DecidableEq, Repr

/-- `reply.rs` struct `Reply { code: u16, ecode: Option<EnhancedCode>, text }`.
Text is embedded as a list of characters. -/
structure Reply where
  code : Nat
  ecode : Option EnhancedCode
  text : List Char
deriving DecidableEq, Repr

/-- `Reply::new_checked`: fails when the code is outside 200..=599 or the text
contains a carriage return. -/
def Reply.new_checked (code : Nat) (ecode : Option EnhancedCode) (text : List Char) :
    Option Reply :=
  if code < 200 ∨ 600 ≤ code ∨ text.contains '\r' then none
  else some ⟨code, ecode, text⟩

/-- `Reply::new`: panicking variant of `new_checked`.  Every call site in the
engine passes a valid literal, so the embedding constructs directly. -/
def Reply.new (code : Nat) (ecode : Option EnhancedCode) (text : List Char) : Reply :=
  ⟨code, ecode, text⟩

/-- `Reply::ok` -/
def Reply.replyOk : Reply := Reply.new 250 none "OK".toList

/-- `Reply::bad_sequence` -/
def Reply.bad_sequence : Reply := Reply.new 503 none "Bad sequence of commands".toList

/-- `Reply::no_mail_transaction` -/
def Reply.no_mail_transaction : Reply :=
  Reply.new 503 none "No mail transaction in progress".toList

/-- `Reply::no_valid_recipients` -/
def Reply.no_valid_recipients : Reply := Reply.new 554 none "No valid recipients".toList

/-- `Reply::syntax_error` -/
def Reply.reply_syntax_error : Reply := Reply.new 500 none "Syntax error".toList

/-- `Reply::not_implemented` -/
def Reply.not_implemented : Reply := Reply.new 502 none "Command not implemented".toList

/-- Decimal rendering of a natural number, mirroring Rust `write!("{}", n)`. -/
def natChars (n : Nat) : List Char :=
  if h : n < 10 then [Char.ofNat (48 + n)]
  else natChars (n / 10) ++ [Char.ofNat (48 + n % 10)]
decreasing_by exact Nat.div_lt_self (by omega) (by omega)

/-- Rendering of `EnhancedCode` followed by the space the `Display` impl for
`Reply` writes after it (`write!("{} ", ecode)`); empty when absent. -/
def ecodePart : Option EnhancedCode → List Char
  | none => []
  | some e =>
    natChars e.class' ++ ['.'] ++ natChars e.subject ++ ['.'] ++ natChars e.detail ++ [' ']

/-- Split on newline characters, mirroring the splitting step of Rust
`str::lines` (a final empty piece is handled separately in `rustLines`). -/
def splitNL : List Char → List (List Char)
  | [] => [[]]
  | c :: rest =>
    if c = '\n' then [] :: splitNL rest
    else
      match splitNL rest with
      | [] => [[c]]
      | l :: ls => (c :: l) :: ls

/-- Drop one trailing carriage return, as Rust `str::lines` does per line. -/
def stripTrailCR (l : List Char) : List Char :=
  if l.getLast? = some '\r' then l.dropLast else l

/-- Rust `str::lines`: split on newlines, drop a final empty piece produced by
a trailing newline, strip one trailing carriage return from each line. -/
def rustLines (s : List Char) : List (List Char) :=
  let parts := splitNL s
  let parts := if parts.getLast? = some [] then parts.dropLast else parts
  parts.map stripTrailCR

/-- The loop body of `impl Display for Reply`: while a further line is peeked
the separator is a dash, the last line uses a space; each physical line is the
code, the separator, the optional enhanced code, the text line and CRLF. -/
def renderLines (code : Nat) (ec : Option EnhancedCode) : List (List Char) → List Char
  | [] => []
  | [l] => natChars code ++ ' ' :: (ecodePart ec ++ l ++ ['\r', '\n'])
  | l1 :: l2 :: rest =>
    (natChars code ++ '-' :: (ecodePart ec ++ l1 ++ ['\r', '\n'])) ++
      renderLines code ec (l2 :: rest)

/-- `impl Display for Reply` -/
def renderReply (r : Reply) : List Char :=
  renderLines r.code r.ecode (rustLines r.text)

/-- Physical lines of the rendered reply, without their CRLF terminators.
Spec-side companion of `renderLines` used to state the framing contract. -/
def physLines (code : Nat) (ec : Option EnhancedCode) : List (List Char) → List (List Char)
  | [] => []
  | [l] => [natChars code ++ ' ' :: (ecodePart ec ++ l)]
  | l1 :: l2 :: rest =>
    (natChars code ++ '-' :: (ecodePart ec ++ l1)) :: physLines code ec (l2 :: rest)

/-- Join physical lines, terminating each with CRLF. -/
def joinCRLF (ls : List (List Char)) : List Char :=
  (ls.map (· ++ ['\r', '\n'])).flatten

/-- A physical line body is clean when it contains neither CR nor LF. -/
def lineClean (l : List Char) : Bool :=
  !(l.contains '\r') && !(l.contains '\n')

/-- The separator discipline: every physical line starts with the decimal code
followed by a dash, except the last which uses a space. -/
def sepOk (code : Nat) : List (List Char) → Bool
  | [] => true
  | [l] => (natChars code ++ [' ']).isPrefixOf l
  | l1 :: l2 :: rest => (natChars code ++ ['-']).isPrefixOf l1 && sepOk code (l2 :: rest)

/-! ## Errors and frames -/

/-- Modelled from the spec: `LineError` of the line codec (the codec source is
not under `src/`; §4.2 and §7 of the spec name the variants; `server.rs` only
matches `LineError::IO` and `LineError::ChunkingDone`). The payloads are
dropped. -/
inductive LineError where
  | IOError
  | LineTooLong
  | Framing
  | ChunkingDone
deriving DecidableEq, Repr

/-- `server.rs` enum `ServerError` (payloads of `IO` dropped). -/
inductive ServerError where
  | EOF
  | Framing (e : LineError)
  | SyntaxError (line : List Nat)
  | IOError
  | Pipelining
  | DataAbort
  | Shutdown
deriving DecidableEq, Repr

/-- `impl From<LineError> for ServerError`. -/
def ServerError.fromLineError : LineError → ServerError
  | .IOError => .IOError
  | e => .Framing e

/-! ## Commands, config, state -/

/-- Base SMTP commands (rustyknife `rfc5321::Command`); path, domain and
parameter payloads are kept abstract as strings since the engine never
inspects them. -/
inductive BaseCommand where
  | EHLO (domain : String)
  | HELO (domain : String)
  | MAIL (path : String) (params : List (String × Option String))
  | RCPT (path : String) (params : List (String × Option String))
  | DATA
  | QUIT
  | RSET
  | NOOP
  | VRFY (target : String)
  | HELP (topic : String)
deriving DecidableEq, Repr

/-- Extension commands (`crate::Ext`). -/
inductive ExtCommand where
  | STARTTLS
  | BDAT (size : Nat) (last : Bool)
deriving DecidableEq, Repr

/-- `crate::Command`: base or extension. -/
inductive Command where
  | Base (b : BaseCommand)
  | Ext (e : ExtCommand)
deriving DecidableEq, Repr

/-- `server.rs` struct `Config`. -/
structure Config where
  enable_smtputf8 : Bool
  enable_chunking : Bool
  enable_starttls : Bool
deriving DecidableEq, Repr

/-- `impl Default for Config`: everything enabled. -/
def Config.default : Config := ⟨true, true, true⟩

/-- `server.rs` enum `State`. -/
inductive State where
  | Initial
  | MAIL
  | RCPT
  | BDAT
  | BDATFAIL
deriving DecidableEq, Repr

/-- `shutdown_check` quiescence condition: `Initial` or `BDATFAIL`. -/
def quiescent : State → Bool
  | .Initial => true
  | .BDATFAIL => true
  | _ => false

/-! ## EHLO keywords -/

/-- `EhloKeywords = BTreeMap<String, Option<String>>`, embedded as an
association list over character lists, kept sorted by key (`BTreeMap`
iteration order). -/
abbrev EhloKeywords := List (List Char × Option (List Char))

/-- `BTreeMap::insert` on the sorted association list. -/
def kwInsert (k : List Char) (v : Option (List Char)) : EhloKeywords → EhloKeywords
  | [] => [(k, v)]
  | (k', v') :: rest =>
    if k < k' then (k, v) :: (k', v') :: rest
    else if k = k' then (k, v) :: rest
    else (k', v') :: kwInsert k v rest

/-- The initial keyword map built by `do_ehlo` before calling the handler:
`PIPELINING` and `ENHANCEDSTATUSCODES` always, then `SMTPUTF8`, `CHUNKING`
and `STARTTLS` gated on the respective `Config` flags. -/
def ehloInitialKeywords (c : Config) : EhloKeywords :=
  let kws : EhloKeywords :=
    kwInsert "ENHANCEDSTATUSCODES".toList none (kwInsert "PIPELINING".toList none [])
  let kws := if c.enable_smtputf8 then kwInsert "SMTPUTF8".toList none kws else kws
  let kws := if c.enable_chunking then kwInsert "CHUNKING".toList none kws else kws
  if c.enable_starttls then kwInsert "STARTTLS".toList none kws else kws

/-- The 250 reply text `do_ehlo` assembles: greeting, then one line per
keyword (`writeln!("{} {}", kw, value)` or `writeln!("{}", kw)`). -/
def ehloReplyText (greeting : List Char) (kws : EhloKeywords) : List Char :=
  greeting ++ '\n' :: (kws.map fun kv =>
    match kv.2 with
    | some v => kv.1 ++ ' ' :: v ++ ['\n']
    | none => kv.1 ++ ['\n']).flatten

/-! ## Handler oracle and events -/

/-- `HandlerResult = Result<Option<Reply>, Option<Reply>>`. -/
abbrev HandlerResult := Except (Option Reply) (Option Reply)

/-- TLS configuration handed back by `Handler::tls_request`; the engine never
inspects it, so it is an abstract tag. -/
structure TlsConfig where
  id : Nat
deriving DecidableEq, Repr

/-- Oracle for one dispatch step: the responses the `Handler` trait object
would give to each callback, plus, for the body callbacks, whether the handler
drained the body stream (`FusedFuture::is_done` of the fused stream). -/
structure HandlerOracle where
  tls_request : Option TlsConfig
  ehlo : Except Reply (List Char × EhloKeywords)
  helo : HandlerResult
  mail : HandlerResult
  rcpt : HandlerResult
  data_start : HandlerResult
  data : Except ServerError (Option Reply)
  dataDrained : Bool
  bdat : Except ServerError (Option Reply)
  bdatDrained : Bool
deriving Repr

/-- Observable events of a session: replies sent through the codec, the raw
`220 starting TLS` write, and handler callback invocations. -/
inductive Event where
  | sent (r : Reply)
  | wroteRaw (bytes : List Char)
  | hTlsRequest
  | hEhlo (initial : EhloKeywords)
  | hHelo
  | hMail
  | hRcpt
  | hDataStart
  | hData
  | hBdat
  | hRset
deriving DecidableEq, Repr

/-! ## Per-command routines -/

/-- `InnerServer::do_ehlo` (the greeting CR/LF assertion is a handler-side
contract and not modelled). -/
def do_ehlo (c : Config) (st : State) (o : HandlerOracle) : List Event × Reply × State :=
  let kws := ehloInitialKeywords c
  match o.ehlo with
  | .error reply => ([.hEhlo kws], reply, st)
  | .ok (greeting, outKws) =>
    ([.hEhlo kws], Reply.new 250 none (ehloReplyText greeting outKws), .Initial)

/-- `InnerServer::do_helo`. -/
def do_helo (st : State) (resp : HandlerResult) : List Event × Reply × State :=
  match resp with
  | .ok r => ([.hHelo], r.getD Reply.replyOk, .Initial)
  | .error r => ([.hHelo], r.getD (Reply.new 550 none "refused".toList), st)

/-- `InnerServer::do_mail`: only legal in `Initial`; success moves to `MAIL`. -/
def do_mail (st : State) (resp : HandlerResult) : List Event × Reply × State :=
  match st with
  | .Initial =>
    match resp with
    | .ok r => ([.hMail], r.getD Reply.replyOk, .MAIL)
    | .error r =>
      ([.hMail], r.getD (Reply.new 550 none "mail transaction refused".toList), .Initial)
  | _ => ([], Reply.bad_sequence, st)

/-- `InnerServer::do_rcpt`: legal in `MAIL` and `RCPT`; success moves to
`RCPT`. -/
def do_rcpt (st : State) (resp : HandlerResult) : List Event × Reply × State :=
  match st with
  | .MAIL | .RCPT =>
    match resp with
    | .ok r => ([.hRcpt], r.getD Reply.replyOk, .RCPT)
    | .error r =>
      ([.hRcpt], r.getD (Reply.new 550 none "recipient not accepted".toList), st)
  | _ => ([], Reply.bad_sequence, st)

/-- `InnerServer::do_data`: on the `RCPT` state runs `data_start`, sends the
354, hands the dot-terminated body stream to the handler and checks that it
was drained; other states get the table refusals. -/
def do_data (st : State) (o : HandlerOracle) :
    List Event × Except ServerError (Reply × State) :=
  match st with
  | .RCPT =>
    match o.data_start with
    | .ok r =>
      let evs := [Event.hDataStart,
        Event.sent (r.getD (Reply.new 354 none "send data".toList)), Event.hData]
      match o.data with
      | .error e => (evs, .error e)
      | .ok reply =>
        if o.dataDrained then (evs, .ok (reply.getD Reply.replyOk, .Initial))
        else
          (evs ++ [Event.sent (reply.getD (Reply.new 550 none "data abort".toList))],
            .error .DataAbort)
    | .error r =>
      ([Event.hDataStart], .ok (r.getD (Reply.new 550 none "data not accepted".toList), st))
  | .Initial => ([], .ok (Reply.no_mail_transaction, st))
  | .MAIL => ([], .ok (Reply.no_valid_recipients, st))
  | .BDAT | .BDATFAIL =>
    ([], .ok (Reply.new 503 none "BDAT may not be mixed with DATA".toList, st))

/-- `InnerServer::do_bdat`: legal in `RCPT` and `BDAT`; a non-drained stream
sends the abort reply, latches `BDATFAIL` and fails with `DataAbort`; success
moves to `Initial` when `last`, else `BDAT`. -/
def do_bdat (st : State) (o : HandlerOracle) (size : Nat) (last : Bool) :
    List Event × Except ServerError (Reply × State) :=
  match st with
  | .RCPT | .BDAT =>
    match o.bdat with
    | .error e => ([Event.hBdat], .error e)
    | .ok reply =>
      if o.bdatDrained then
        ([Event.hBdat], .ok (reply.getD Reply.replyOk, if last then .Initial else .BDAT))
      else
        ([Event.hBdat, Event.sent (reply.getD (Reply.new 550 none "data abort".toList))],
          .error .DataAbort)
  | .MAIL => ([], .ok (Reply.no_valid_recipients, st))
  | .Initial | .BDATFAIL => ([], .ok (Reply.no_mail_transaction, st))

/-- `LoopExit<H>`. -/
inductive LoopExit where
  | Done
  | STARTTLS (cfg : TlsConfig)
deriving DecidableEq, Repr

/-- `InnerServer::dispatch_command`: routes a parsed command, sending the
routine's reply; `STARTTLS` and `BDAT` are only honoured when the respective
`Config` flag is enabled, every unhandled command gets 502. -/
def dispatch (c : Config) (st : State) (o : HandlerOracle) (cmd : Command) :
    List Event × Except ServerError (Option LoopExit × State) :=
  match cmd with
  | .Base (.EHLO _) =>
    let (evs, r, st') := do_ehlo c st o
    (evs ++ [.sent r], .ok (none, st'))
  | .Base (.HELO _) =>
    let (evs, r, st') := do_helo st o.helo
    (evs ++ [.sent r], .ok (none, st'))
  | .Base (.MAIL _ _) =>
    let (evs, r, st') := do_mail st o.mail
    (evs ++ [.sent r], .ok (none, st'))
  | .Base (.RCPT _ _) =>
    let (evs, r, st') := do_rcpt st o.rcpt
    (evs ++ [.sent r], .ok (none, st'))
  | .Base .DATA =>
    match do_data st o with
    | (evs, .error e) => (evs, .error e)
    | (evs, .ok (r, st')) => (evs ++ [.sent r], .ok (none, st'))
  | .Base .QUIT => ([.sent (Reply.new 221 none "bye".toList)], .ok (some .Done, st))
  | .Base .RSET => ([.hRset, .sent Reply.replyOk], .ok (none, .Initial))
  | .Ext .STARTTLS =>
    if c.enable_starttls then
      match o.tls_request with
      | some cfg => ([.hTlsRequest], .ok (some (.STARTTLS cfg), st))
      | none => ([.hTlsRequest, .sent Reply.not_implemented], .ok (none, st))
    else ([.sent Reply.not_implemented], .ok (none, st))
  | .Ext (.BDAT sz lst) =>
    if c.enable_chunking then
      match do_bdat st o sz lst with
      | (evs, .error e) => (evs, .error e)
      | (evs, .ok (r, st')) => (evs ++ [.sent r], .ok (none, st'))
    else ([.sent Reply.not_implemented], .ok (none, st))
  | _ => ([.sent Reply.not_implemented], .ok (none, st))

/-! ## Command reader and serve loop -/

/-- Environment of one `read_command` call: whether the shutdown future was
already terminated, which side of the `select` race wins, the next item the
codec yields (`none` is end of stream), and what the external rustyknife
parser makes of the line (`none` covers both a parse failure and trailing
garbage, each of which `read_command` turns into `SyntaxError`). -/
structure ReadEnv where
  shutdownTerminated : Bool
  shutdownFirst : Bool
  nextLine : Option (Except LineError (List Nat))
  parse : Option Command
deriving Repr

/-- `InnerServer::shutdown_check`. -/
def shutdown_check (idle : Bool) (st : State) : Except ServerError Unit :=
  if idle && quiescent st then .error .Shutdown else .ok ()

/-- `InnerServer::read_command`: the entry shutdown check, the select race
against the shutdown signal (which latches `shutdown_on_idle` and re-checks),
then EOF / framing / parse handling.  Returns the result together with the
updated `shutdown_on_idle` flag. -/
def read_command (st : State) (idle : Bool) (env : ReadEnv) :
    Except ServerError Command × Bool :=
  match shutdown_check idle st with
  | .error e => (.error e, idle)
  | .ok _ =>
    let step : Except ServerError (Option (Except LineError (List Nat))) × Bool :=
      if env.shutdownTerminated then (.ok env.nextLine, idle)
      else if env.shutdownFirst then
        match shutdown_check true st with
        | .error e => (.error e, true)
        | .ok _ => (.ok env.nextLine, true)
      else (.ok env.nextLine, idle)
    match step with
    | (.error e, idle') => (.error e, idle')
    | (.ok none, idle') => (.error .EOF, idle')
    | (.ok (some (.error e)), idle') => (.error (ServerError.fromLineError e), idle')
    | (.ok (some (.ok line)), idle') =>
      match env.parse with
      | none => (.error (.SyntaxError line), idle')
      | some cmd => (.ok cmd, idle')

/-- Mutable loop state of `InnerServer`: session state and the latched
`shutdown_on_idle` flag. -/
structure ServeState where
  state : State
  idle : Bool
deriving DecidableEq, Repr

/-- Environment of one iteration of the `serve` loop: the reader environment,
the handler oracle, and the content of the codec's read buffer at the moment
a STARTTLS handoff destructures the codec. -/
structure IterEnv where
  read : ReadEnv
  oracle : HandlerOracle
  bufAtHandoff : List Nat
deriving Repr

/-- Result of one loop iteration: continue with a new loop state, or leave
the loop with `serve`'s result. -/
inductive StepRes where
  | cont (s : ServeState)
  | exit (r : Except ServerError LoopExit)

/-- One iteration of the loop in `InnerServer::serve`: read a command
(syntax errors get a 500 and continue; `Shutdown` sends 421 and exits `Done`;
other errors are fatal), dispatch it, and handle the `LoopExit` cases — for
STARTTLS, a non-empty read buffer is a fatal `Pipelining` error, otherwise
the raw `220 starting TLS` line is written and the TLS config returned. -/
def serveStep (c : Config) (s : ServeState) (e : IterEnv) : List Event × StepRes :=
  match read_command s.state s.idle e.read with
  | (.error (.SyntaxError _), idle') =>
    ([.sent Reply.reply_syntax_error], .cont ⟨s.state, idle'⟩)
  | (.error .Shutdown, _) =>
    ([.sent (Reply.new 421 none "Shutting down".toList)], .exit (.ok .Done))
  | (.error err, _) => ([], .exit (.error err))
  | (.ok cmd, idle') =>
    match dispatch c s.state e.oracle cmd with
    | (evs, .error err) => (evs, .exit (.error err))
    | (evs, .ok (some .Done, _)) => (evs, .exit (.ok .Done))
    | (evs, .ok (some (.STARTTLS cfg), _)) =>
      if e.bufAtHandoff.isEmpty then
        (evs ++ [.wroteRaw (renderReply (Reply.new 220 none "starting TLS".toList))],
          .exit (.ok (.STARTTLS cfg)))
      else (evs, .exit (.error .Pipelining))
    | (evs, .ok (none, st')) => (evs, .cont ⟨st', idle'⟩)

/-- The loop of `InnerServer::serve`, driven by a finite list of iteration
environments; `none` means the supplied environments were exhausted before
the session ended. -/
def serveLoop (c : Config) :
    List IterEnv → ServeState → List Event × Option (Except ServerError LoopExit)
  | [], _ => ([], none)
  | e :: rest, s =>
    match serveStep c s e with
    | (evs, .exit r) => (evs, some r)
    | (evs, .cont s') =>
      let (evs', r) := serveLoop c rest s'
      (evs ++ evs', r)

/-- `InnerServer::serve`: optionally send the banner, then run the loop. -/
def serve (c : Config) (banner : Bool) (envs : List IterEnv) (s : ServeState) :
    List Event × Option (Except ServerError LoopExit) :=
  let (evs, r) := serveLoop c envs s
  ((if banner then
      [Event.sent (Reply.new 220 none "localhost ESMTP smtpbis 0.1.0".toList)]
    else []) ++ evs, r)

/-- `smtp_server`: seeds `shutdown_on_idle` with `shutdown.is_terminated()`
and the state with `Initial`, then serves. -/
def smtp_server (c : Config) (banner : Bool) (terminated : Bool) (envs : List IterEnv) :
    List Event × Option (Except ServerError LoopExit) :=
  serve c banner envs ⟨State.Initial, terminated⟩

/-! ## DATA body stream -/

/-- The `".\r\n"` terminator line. -/
def dotTerminator : List Nat := [46, 13, 10]

/-- The `take_while` closure of `read_body_data`: keep a frame unless it is
an `Ok` line equal to the terminator (error frames pass through). -/
def keepFrame : Except LineError (List Nat) → Bool
  | .ok line => !(line == dotTerminator)
  | .error _ => true

/-- The `map` closure of `read_body_data`: dot-unstuff an `Ok` line
(`starts_with(b".")` / `split_to(1)`), pass errors through. -/
def unstuffFrame (res : Except LineError (List Nat)) : Except LineError (List Nat) :=
  res.map fun line => if [46].isPrefixOf line then line.drop 1 else line

/-- `read_body_data`: take line frames while they are not the bare-dot
terminator, then dot-unstuff each remaining `Ok` frame. -/
def read_body_data (src : List (Except LineError (List Nat))) :
    List (Except LineError (List Nat)) :=
  (src.takeWhile keepFrame).map unstuffFrame

/-! ## Spec-side characterisations -/

/-- The refusal the §4.4 state table prescribes for a MAIL, RCPT, DATA or
BDAT command that is forbidden in the given state (`none` when the table
allows the command there).  Cells: `503` is the bad-sequence reply,
`503 no-tx` the no-transaction reply, `554 no-rcpt` the no-valid-recipients
reply and `503 mix` the DATA/BDAT mixing reply. -/
def tableForbidden : State → Command → Option Reply
  | st, .Base (.MAIL _ _) =>
    match st with
    | .MAIL | .RCPT | .BDAT => some Reply.bad_sequence
    | _ => none
  | st, .Base (.RCPT _ _) =>
    match st with
    | .Initial | .BDAT | .BDATFAIL => some Reply.bad_sequence
    | _ => none
  | st, .Base .DATA =>
    match st with
    | .Initial => some Reply.no_mail_transaction
    | .MAIL => some Reply.no_valid_recipients
    | .BDAT | .BDATFAIL => some (Reply.new 503 none "BDAT may not be mixed with DATA".toList)
    | .RCPT => none
  | st, .Ext (.BDAT _ _) =>
    match st with
    | .Initial | .BDATFAIL => some Reply.no_mail_transaction
    | .MAIL => some Reply.no_valid_recipients
    | _ => none
  | _, _ => none

/-- Key set of the initial EHLO keyword map the engine builds. -/
def ehloKeysFinset (c : Config) : Finset (List Char) :=
  ((ehloInitialKeywords c).map Prod.fst).toFinset

/-- The keyword set claimed by the spec: the fixed base plus the config-gated
extensions, with STARTTLS additionally conditioned on the session not already
being over TLS. -/
def claimedEhloKeys (c : Config) (alreadyTls : Bool) : Finset (List Char) :=
  {"PIPELINING".toList, "ENHANCEDSTATUSCODES".toList} ∪
    (if c.enable_smtputf8 then {"SMTPUTF8".toList} else ∅) ∪
    (if c.enable_chunking then {"CHUNKING".toList} else ∅) ∪
    (if c.enable_starttls && !alreadyTls then {"STARTTLS".toList} else ∅)

/-- Whether an event is the sending of a reply with the given code. -/
def sentCode (n : Nat) : Event → Bool
  | .sent r => r.code == n
  | _ => false

/-- A neutral handler oracle used to instantiate theorems at concrete
inputs. -/
def oracleA : HandlerOracle :=
  { tls_request := none
    ehlo := .error Reply.replyOk
    helo := .ok none
    mail := .ok none
    rcpt := .ok none
    data_start := .ok none
    data := .ok none
    dataDrained := true
    bdat := .ok none
    bdatDrained := true }

/-! ## Claims -/

/-- C2, counterexample: in state `BDATFAIL` a MAIL command does not invoke
the handler's mail callback (no `hMail` event), leaves the state `BDATFAIL`
instead of moving to `MAIL`, and replies 503 bad sequence — contradicting the
claim that MAIL is accepted there and clears `BDATFAIL`. -/
theorem C2_counterexample :
    Event.hMail ∉ (do_mail State.BDATFAIL (Except.ok none)).1 ∧
    (do_mail State.BDATFAIL (Except.ok none)).2.2 = State.BDATFAIL ∧
    (do_mail State.BDATFAIL (Except.ok none)).2.1 = Reply.bad_sequence := by
  decide

/-- C2, amended: in state `BDATFAIL` a MAIL command returns 503 Bad sequence
of commands without invoking the mail callback and leaves the state
unchanged, whatever the handler would have answered. -/
theorem C2_mail_in_bdatfail (resp : HandlerResult) :
    do_mail State.BDATFAIL resp = ([], Reply.bad_sequence, State.BDATFAIL) := rfl

/-- C9: with chunking disabled a BDAT command in any state, and with starttls
disabled a STARTTLS command in any state, is answered with the 502
`Command not implemented` reply, without invoking any handler callback and
without changing the session state. -/
theorem C9_disabled_extensions (c : Config) (st : State) (o : HandlerOracle)
    (sz : Nat) (lst : Bool) :
    (c.enable_chunking = false →
      dispatch c st o (.Ext (.BDAT sz lst)) =
        ([.sent (Reply.new 502 none "Command not implemented".toList)], .ok (none, st)))
    ∧ (c.enable_starttls = false →
      dispatch c st o (.Ext .STARTTLS) =
        ([.sent (Reply.new 502 none "Command not implemented".toList)], .ok (none, st))) := by
  constructor <;> intro h <;> simp [dispatch, h, Reply.not_implemented]

/-- C9, witness: concrete instantiation with both flags disabled. -/
theorem C9_witness :
    dispatch ⟨true, false, false⟩ State.RCPT oracleA (.Ext (.BDAT 5 true)) =
      ([.sent (Reply.new 502 none "Command not implemented".toList)], .ok (none, State.RCPT))
    ∧ dispatch ⟨true, false, false⟩ State.Initial oracleA (.Ext .STARTTLS) =
      ([.sent (Reply.new 502 none "Command not implemented".toList)],
        .ok (none, State.Initial)) :=
  ⟨(C9_disabled_extensions ⟨true, false, false⟩ State.RCPT oracleA 5 true).1 rfl,
    (C9_disabled_extensions ⟨true, false, false⟩ State.Initial oracleA 5 true).2 rfl⟩

/-- C7: every MAIL, RCPT, DATA or BDAT command that the §4.4 table forbids in
the current state is answered with exactly the reply the table prescribes,
the state is unchanged, and no handler callback runs (the trace holds only
the sent reply). -/
theorem C7_forbidden_commands (c : Config) (st : State) (o : HandlerOracle)
    (cmd : Command) (r : Reply) (hc : c.enable_chunking = true)
    (h : tableForbidden st cmd = some r) :
    dispatch c st o cmd = ([.sent r], .ok (none, st)) := by
  cases cmd with
  | Base b =>
    cases b <;> cases st <;>
      simp_all [tableForbidden, dispatch, do_mail, do_rcpt, do_data, do_bdat]
  | Ext e =>
    cases e <;> cases st <;>
      simp_all [tableForbidden, dispatch, do_bdat]

/-- C7, witness: RCPT in `Initial` gets the 503 bad-sequence reply. -/
theorem C7_witness :
    dispatch Config.default State.Initial oracleA (.Base (.RCPT "c@d" [])) =
      ([.sent Reply.bad_sequence], .ok (none, State.Initial)) :=
  C7_forbidden_commands Config.default State.Initial oracleA
    (.Base (.RCPT "c@d" [])) Reply.bad_sequence rfl rfl

/-- C3, counterexample: with the default configuration the key set the engine
passes to the ehlo callback differs from the set the claim prescribes for a
session already over TLS — the engine includes STARTTLS with no over-TLS
check. -/
theorem C3_counterexample :
    ehloKeysFinset Config.default ≠ claimedEhloKeys Config.default true := by
  decide

/-- C3, amended: the first event of dispatching EHLO is the ehlo callback
receiving exactly `ehloInitialKeywords c`, whose key set is
{PIPELINING, ENHANCEDSTATUSCODES}, plus SMTPUTF8 when smtputf8 is enabled,
plus CHUNKING when chunking is enabled, plus STARTTLS whenever starttls is
enabled — with no condition on the session being over TLS. -/
theorem C3_ehlo_keywords (c : Config) (st : State) (o : HandlerOracle) (d : String) :
    (dispatch c st o (.Base (.EHLO d))).1.head? = some (.hEhlo (ehloInitialKeywords c))
    ∧ ehloKeysFinset c = claimedEhloKeys c false := by
  constructor
  · cases h : o.ehlo <;> simp [dispatch, do_ehlo, h]
  · rcases c with ⟨s, k, t⟩
    cases s <;> cases k <;> cases t <;> decide

/-- Starting with a dot byte is the same as having 46 as first byte. -/
lemma isPrefixOf_dot (l : List Nat) : [46].isPrefixOf l = true ↔ l.head? = some 46 := by
  cases l with
  | nil => simp [List.isPrefixOf]
  | cons a t =>
    simp only [List.isPrefixOf, Bool.and_eq_true, beq_iff_eq, List.head?_cons,
      Option.some.injEq]
    constructor
    · rintro ⟨h, _⟩
      exact h.symm
    · intro h
      exact ⟨h.symm, trivial⟩

/-- A kept frame is unstuffed and the stream continues. -/
lemma read_body_data_cons_keep (r : Except LineError (List Nat))
    (rest : List (Except LineError (List Nat))) (h : keepFrame r = true) :
    read_body_data (r :: rest) = unstuffFrame r :: read_body_data rest := by
  simp [read_body_data, List.takeWhile_cons, h]

/-- The terminator frame stops the stream. -/
lemma read_body_data_cons_stop (r : Except LineError (List Nat))
    (rest : List (Except LineError (List Nat))) (h : keepFrame r = false) :
    read_body_data (r :: rest) = [] := by
  simp [read_body_data, List.takeWhile_cons, h]

/-- C6: the DATA body stream yields exactly the frames strictly preceding the
first frame equal to `".\r\n"` (all frames when no terminator occurs, since
`findIdx` returns the length then), each with one leading dot removed when
its first byte is a dot and byte-identical otherwise. -/
theorem C6_data_stream (lines : List (List Nat)) :
    read_body_data (lines.map Except.ok) =
      (lines.take (lines.findIdx fun l => l == dotTerminator)).map
        (fun l => Except.ok (if l.head? = some 46 then l.tail else l)) := by
  induction lines with
  | nil => rfl
  | cons l ls ih =>
    by_cases h : l = dotTerminator
    · subst h
      have h1 : keepFrame (Except.ok dotTerminator) = false := by
        simp [keepFrame]
      rw [List.map_cons, read_body_data_cons_stop _ _ h1, List.findIdx_cons]
      simp
    · have h1 : keepFrame (Except.ok l) = true := by
        simp [keepFrame, h]
      have h2 : (l == dotTerminator) = false := by simp [h]
      have h3 : unstuffFrame (Except.ok l) =
          Except.ok (if l.head? = some 46 then l.tail else l) := by
        simp only [unstuffFrame, Except.map]
        by_cases hd : l.head? = some 46
        · rw [if_pos ((isPrefixOf_dot l).mpr hd), if_pos hd, List.drop_one]
        · rw [if_neg hd, if_neg fun hp => hd ((isPrefixOf_dot l).mp hp)]
      rw [List.map_cons, read_body_data_cons_keep _ _ h1, ih, h3, List.findIdx_cons]
      simp [h2, List.take_succ_cons]

/-- C10: when the shutdown signal is already terminated on entry the session
answers 421 Shutting down and ends with `Done` at the first command read,
whatever bytes or commands the client would have supplied (the result does
not depend on the iteration environments); with a banner requested, the
banner is the only earlier event. -/
theorem C10_immediate_shutdown (c : Config) (e : IterEnv) (rest : List IterEnv) :
    smtp_server c true true (e :: rest) =
      ([.sent (Reply.new 220 none "localhost ESMTP smtpbis 0.1.0".toList),
        .sent (Reply.new 421 none "Shutting down".toList)],
        some (.ok .Done))
    ∧ smtp_server c false true (e :: rest) =
      ([.sent (Reply.new 421 none "Shutting down".toList)], some (.ok .Done)) := by
  constructor <;>
    simp [smtp_server, serve, serveLoop, serveStep, read_command, shutdown_check, quiescent]

/-- C4: if the shutdown signal resolves while awaiting a command in a
quiescent state (`Initial`/`BDATFAIL`) the session sends 421 Shutting down
and exits `Done`; the same happens at a command-read boundary entered with
the latched `shutdown_on_idle` flag; in any non-quiescent state the winning
shutdown branch does not change the outcome of the command read (the
transaction is not interrupted). -/
theorem C4_shutdown_race (c : Config) (env : IterEnv) (rest : List IterEnv)
    (st : State) (idl t : Bool) (nl : Option (Except LineError (List Nat)))
    (p : Option Command) :
    (quiescent st = true → env.read.shutdownTerminated = false →
      env.read.shutdownFirst = true →
      serveLoop c (env :: rest) ⟨st, false⟩ =
        ([.sent (Reply.new 421 none "Shutting down".toList)], some (.ok .Done)))
    ∧ (quiescent st = true →
      serveLoop c (env :: rest) ⟨st, true⟩ =
        ([.sent (Reply.new 421 none "Shutting down".toList)], some (.ok .Done)))
    ∧ (quiescent st = false →
      (read_command st idl ⟨t, true, nl, p⟩).1 = (read_command st idl ⟨t, false, nl, p⟩).1) := by
  refine ⟨fun hq h1 h2 => ?_, fun hq => ?_, fun hq => ?_⟩
  · simp [serveLoop, serveStep, read_command, shutdown_check, hq, h1, h2]
  · simp [serveLoop, serveStep, read_command, shutdown_check, hq]
  · cases t
    · cases nl with
      | none => simp [read_command, shutdown_check, hq]
      | some r => cases r <;> cases p <;> simp [read_command, shutdown_check, hq]
    · simp [read_command, shutdown_check, hq]

/-- C4, witness: the three parts at concrete inputs — racing shutdown in
`Initial`, a latched idle boundary in `BDATFAIL`, and an uninterrupted read
in state `MAIL`. -/
theorem C4_witness :
    serveLoop Config.default
        [⟨⟨false, true, some (.ok [82]), some (.Base .RSET)⟩, oracleA, []⟩]
        ⟨State.Initial, false⟩ =
      ([.sent (Reply.new 421 none "Shutting down".toList)], some (.ok .Done))
    ∧ serveLoop Config.default
        [⟨⟨false, false, some (.ok [82]), some (.Base .RSET)⟩, oracleA, []⟩]
        ⟨State.BDATFAIL, true⟩ =
      ([.sent (Reply.new 421 none "Shutting down".toList)], some (.ok .Done))
    ∧ (read_command State.MAIL false ⟨false, true, some (.ok [82]), some (.Base .RSET)⟩).1 =
      (read_command State.MAIL false ⟨false, false, some (.ok [82]), some (.Base .RSET)⟩).1 :=
  ⟨(C4_shutdown_race Config.default
      ⟨⟨false, true, some (.ok [82]), some (.Base .RSET)⟩, oracleA, []⟩ [] State.Initial
      false false none none).1 rfl rfl rfl,
    ((C4_shutdown_race Config.default
      ⟨⟨false, false, some (.ok [82]), some (.Base .RSET)⟩, oracleA, []⟩ [] State.BDATFAIL
      false false none none).2).1 rfl,
    ((C4_shutdown_race Config.default
      ⟨⟨false, false, some (.ok [82]), some (.Base .RSET)⟩, oracleA, []⟩ [] State.MAIL
      false false (some (.ok [82])) (some (.Base .RSET))).2).2 rfl⟩

/-- C1: when a STARTTLS command is dispatched, the handler offers a TLS
configuration, and the codec read buffer is non-empty at the handoff, the
session ends with the fatal `Pipelining` error; the only event of the step is
the `tls_request` callback — the raw 220 is not written and nothing from the
buffer (or any later environment) is parsed or dispatched. -/
theorem C1_starttls_pipelining (c : Config) (env : IterEnv) (rest : List IterEnv)
    (st : State) (ln : List Nat) (cfg : TlsConfig)
    (hs : c.enable_starttls = true)
    (h1 : env.read.shutdownFirst = false)
    (h2 : env.read.nextLine = some (.ok ln))
    (h3 : env.read.parse = some (.Ext .STARTTLS))
    (h4 : env.oracle.tls_request = some cfg)
    (h5 : env.bufAtHandoff ≠ []) :
    serveLoop c (env :: rest) ⟨st, false⟩ =
      ([.hTlsRequest], some (.error .Pipelining)) := by
  have h6 : env.bufAtHandoff.isEmpty = false := by
    cases hb : env.bufAtHandoff with
    | nil => exact absurd hb h5
    | cons a l => rfl
  cases ht : env.read.shutdownTerminated <;>
    simp [serveLoop, serveStep, read_command, shutdown_check, dispatch,
      hs, h1, h2, h3, h4, h6, ht]

/-- C1, witness: a pipelined `RSET` byte left in the buffer after STARTTLS
kills the session with `Pipelining`. -/
theorem C1_witness :
    serveLoop Config.default
        [⟨⟨false, false, some (.ok [83]), some (.Ext .STARTTLS)⟩,
          { oracleA with tls_request := some ⟨0⟩ }, [82, 83]⟩]
        ⟨State.Initial, false⟩ =
      ([.hTlsRequest], some (.error .Pipelining)) :=
  C1_starttls_pipelining Config.default
    ⟨⟨false, false, some (.ok [83]), some (.Ext .STARTTLS)⟩,
      { oracleA with tls_request := some ⟨0⟩ }, [82, 83]⟩
    [] State.Initial [83] ⟨0⟩ rfl rfl rfl rfl rfl (by decide)

/-- Oracle whose data callback returns a 250 reply without draining the
stream, for the C5 counterexample. -/
def oracleC5 : HandlerOracle :=
  { oracleA with
    data := .ok (some (Reply.new 250 none "done".toList))
    dataDrained := false }

/-- Iteration environment delivering a DATA command to `oracleC5`. -/
def envC5 : IterEnv :=
  ⟨⟨false, false, some (.ok [68]), some (.Base .DATA)⟩, oracleC5, []⟩

/-- C5, counterexample: the handler returns `Ok(Some(250 reply))` before
draining the DATA stream; the session does fail with `DataAbort`, but no
reply with code 550 is ever sent — the engine sends the handler's own 250
reply — contradicting the claim that a 550 reply is sent. -/
theorem C5_counterexample :
    (serveLoop Config.default [envC5] ⟨State.RCPT, false⟩).2 =
      some (.error .DataAbort)
    ∧ ((serveLoop Config.default [envC5] ⟨State.RCPT, false⟩).1.filter
        (sentCode 550)) = []
    ∧ Event.sent (Reply.new 250 none "done".toList) ∈
        (serveLoop Config.default [envC5] ⟨State.RCPT, false⟩).1 := by
  refine ⟨rfl, rfl, ?_⟩
  decide

/-- C5, amended: when the DATA (or BDAT) handler callback returns
successfully before its body stream is drained, the engine sends the reply
the handler returned — or the default 550 data abort reply when it returned
none — and the session fails with the fatal `DataAbort` error. -/
theorem C5_data_abort (c : Config) (env : IterEnv) (rest : List IterEnv)
    (st : State) (ln : List Nat) (dsr rep brep : Option Reply) (sz : Nat) (lst : Bool) :
    (env.read.shutdownFirst = false → env.read.nextLine = some (.ok ln) →
      env.read.parse = some (.Base .DATA) →
      env.oracle.data_start = .ok dsr → env.oracle.data = .ok rep →
      env.oracle.dataDrained = false →
      serveLoop c (env :: rest) ⟨.RCPT, false⟩ =
        ([.hDataStart, .sent (dsr.getD (Reply.new 354 none "send data".toList)), .hData,
          .sent (rep.getD (Reply.new 550 none "data abort".toList))],
          some (.error .DataAbort)))
    ∧ (env.read.shutdownFirst = false → env.read.nextLine = some (.ok ln) →
      env.read.parse = some (.Ext (.BDAT sz lst)) → c.enable_chunking = true →
      (st = .RCPT ∨ st = .BDAT) →
      env.oracle.bdat = .ok brep → env.oracle.bdatDrained = false →
      serveLoop c (env :: rest) ⟨st, false⟩ =
        ([.hBdat, .sent (brep.getD (Reply.new 550 none "data abort".toList))],
          some (.error .DataAbort))) := by
  constructor
  · intro h1 h2 h3 h4 h5 h6
    cases ht : env.read.shutdownTerminated <;>
      simp [serveLoop, serveStep, read_command, shutdown_check, quiescent, dispatch,
        do_data, h1, h2, h3, h4, h5, h6, ht]
  · intro h1 h2 h3 hc hst h4 h5
    cases hst with
    | inl h => subst h
               cases ht : env.read.shutdownTerminated <;>
                 simp [serveLoop, serveStep, read_command, shutdown_check, quiescent,
                   dispatch, do_bdat, h1, h2, h3, hc, h4, h5, ht]
    | inr h => subst h
               cases ht : env.read.shutdownTerminated <;>
                 simp [serveLoop, serveStep, read_command, shutdown_check, quiescent,
                   dispatch, do_bdat, h1, h2, h3, hc, h4, h5, ht]

/-- C5, witness: the amended behaviour at concrete inputs for both DATA and
BDAT. -/
theorem C5_witness :
    serveLoop Config.default [envC5] ⟨State.RCPT, false⟩ =
      ([.hDataStart, .sent (Reply.new 354 none "send data".toList), .hData,
        .sent (Reply.new 250 none "done".toList)], some (.error .DataAbort))
    ∧ serveLoop Config.default
        [⟨⟨false, false, some (.ok [66]), some (.Ext (.BDAT 4 true))⟩,
          { oracleA with bdatDrained := false }, []⟩]
        ⟨State.BDAT, false⟩ =
      ([.hBdat, .sent (Reply.new 550 none "data abort".toList)],
        some (.error .DataAbort)) :=
  ⟨(C5_data_abort Config.default envC5 [] State.RCPT [68] none
      (some (Reply.new 250 none "done".toList)) none 0 false).1
      rfl rfl rfl rfl rfl rfl,
    (C5_data_abort Config.default
      ⟨⟨false, false, some (.ok [66]), some (.Ext (.BDAT 4 true))⟩,
        { oracleA with bdatDrained := false }, []⟩
      [] State.BDAT [66] none none none 4 true).2
      rfl rfl rfl rfl (Or.inr rfl) rfl rfl⟩

/-! ## Reply rendering lemmas -/

/-- Value of a digit character. -/
lemma toNat_digitChar (m : Nat) (h : m < 10) : (Char.ofNat (48 + m)).toNat = 48 + m := by
  interval_cases m <;> decide

/-- Every character of the decimal rendering is a digit. -/
lemma natChars_digit (n : Nat) : ∀ c ∈ natChars n, 48 ≤ c.toNat ∧ c.toNat ≤ 57 := by
  induction n using Nat.strong_induction_on with
  | _ n ih =>
    intro c hc
    rw [natChars] at hc
    split at hc
    · next h =>
      simp only [List.mem_singleton] at hc
      subst hc
      rw [toNat_digitChar n h]
      omega
    · next h =>
      rcases List.mem_append.mp hc with h1 | h1
      · exact ih (n / 10) (Nat.div_lt_self (by omega) (by omega)) c h1
      · simp only [List.mem_singleton] at h1
        subst h1
        have hm : n % 10 < 10 := Nat.mod_lt _ (by omega)
        rw [toNat_digitChar _ hm]
        omega

/-- Digits are neither CR nor LF. -/
lemma natChars_no_crlf (n : Nat) : ∀ c ∈ natChars n, c ≠ '\r' ∧ c ≠ '\n' := by
  intro c hc
  have h := natChars_digit n c hc
  constructor <;> rintro rfl <;> simp at h

/-- The rendered enhanced code contains neither CR nor LF. -/
lemma ecodePart_no_crlf (ec : Option EnhancedCode) :
    ∀ c ∈ ecodePart ec, c ≠ '\r' ∧ c ≠ '\n' := by
  cases ec with
  | none => intro c hc; simp [ecodePart] at hc
  | some e =>
    intro c hc
    simp only [ecodePart, List.mem_append, List.mem_singleton] at hc
    rcases hc with ((((h | h) | h) | h) | h) | h
    · exact natChars_no_crlf _ c h
    · subst h; exact ⟨by decide, by decide⟩
    · exact natChars_no_crlf _ c h
    · subst h; exact ⟨by decide, by decide⟩
    · exact natChars_no_crlf _ c h
    · subst h; exact ⟨by decide, by decide⟩

/-- `splitNL` never returns the empty list of pieces. -/
lemma splitNL_ne_nil (s : List Char) : splitNL s ≠ [] := by
  cases s with
  | nil => simp [splitNL]
  | cons a rest =>
    rw [splitNL]
    split
    · simp
    · split <;> simp

/-- Characters of a `splitNL` piece come from the input and are never LF. -/
lemma splitNL_mem (s : List Char) :
    ∀ l ∈ splitNL s, ∀ c ∈ l, c ∈ s ∧ c ≠ '\n' := by
  induction s with
  | nil =>
    intro l hl c hc
    simp [splitNL] at hl
    subst hl
    simp at hc
  | cons a rest ih =>
    intro l hl c hc
    rw [splitNL] at hl
    by_cases ha : a = '\n'
    · rw [if_pos ha] at hl
      rcases List.mem_cons.mp hl with h | h
      · subst h; simp at hc
      · have := ih l h c hc
        exact ⟨List.mem_cons_of_mem _ this.1, this.2⟩
    · rw [if_neg ha] at hl
      rcases hsplit : splitNL rest with _ | ⟨hd, tl⟩
      · exact absurd hsplit (splitNL_ne_nil rest)
      · rw [hsplit] at hl
        rcases List.mem_cons.mp hl with h | h
        · subst h
          rcases List.mem_cons.mp hc with h | h
          · subst h; exact ⟨List.mem_cons_self _ _, ha⟩
          · have := ih hd (by rw [hsplit]; exact List.mem_cons_self _ _) c h
            exact ⟨List.mem_cons_of_mem _ this.1, this.2⟩
        · have := ih l (by rw [hsplit]; exact List.mem_cons_of_mem _ h) c hc
          exact ⟨List.mem_cons_of_mem _ this.1, this.2⟩

/-- Characters of a `rustLines` line come from the input and are never LF. -/
lemma rustLines_mem (s : List Char) :
    ∀ l ∈ rustLines s, ∀ c ∈ l, c ∈ s ∧ c ≠ '\n' := by
  intro l hl c hc
  simp only [rustLines, List.mem_map] at hl
  obtain ⟨l', hl', rfl⟩ := hl
  have hmem : l' ∈ splitNL s := by
    by_cases hb : (splitNL s).getLast? = some []
    · rw [if_pos hb] at hl'
      exact (List.dropLast_sublist _).subset hl'
    · rw [if_neg hb] at hl'
      exact hl'
  have hsub : c ∈ l' := by
    unfold stripTrailCR at hc
    split at hc
    · exact (List.dropLast_sublist _).subset hc
    · exact hc
  exact splitNL_mem s l' hmem c hsub

/-- The rendered reply is the CRLF-join of its physical lines. -/
lemma render_eq_join (code : Nat) (ec : Option EnhancedCode) (ls : List (List Char)) :
    renderLines code ec ls = joinCRLF (physLines code ec ls) := by
  induction ls with
  | nil => rfl
  | cons l rest ih =>
    cases rest with
    | nil => simp [renderLines, physLines, joinCRLF]
    | cons l2 rest2 =>
      simp only [renderLines, physLines, joinCRLF, List.map_cons, List.flatten_cons] at ih ⊢
      rw [ih]
      simp [List.append_assoc]

/-- A physical line assembled from a clean text line is clean. -/
lemma physLine_clean (code : Nat) (ec : Option EnhancedCode) (sep : Char) (l : List Char)
    (hsep : sep = ' ' ∨ sep = '-') (hl : ∀ c ∈ l, c ≠ '\r' ∧ c ≠ '\n') :
    lineClean (natChars code ++ sep :: (ecodePart ec ++ l)) = true := by
  have hmem : ∀ c ∈ natChars code ++ sep :: (ecodePart ec ++ l), c ≠ '\r' ∧ c ≠ '\n' := by
    intro c hc
    rcases List.mem_append.mp hc with h | h
    · exact natChars_no_crlf _ c h
    · rcases List.mem_cons.mp h with h | h
      · subst h
        rcases hsep with rfl | rfl
        · exact ⟨by decide, by decide⟩
        · exact ⟨by decide, by decide⟩
      · rcases List.mem_append.mp h with h | h
        · exact ecodePart_no_crlf ec c h
        · exact hl c h
  have hr : '\r' ∉ natChars code ++ sep :: (ecodePart ec ++ l) := fun h => (hmem _ h).1 rfl
  have hn : '\n' ∉ natChars code ++ sep :: (ecodePart ec ++ l) := fun h => (hmem _ h).2 rfl
  simp only [lineClean, Bool.and_eq_true, Bool.not_eq_eq_eq_not, Bool.not_true]
  constructor <;> simp [hr, hn]

/-- A literal prefix check succeeds. -/
lemma isPrefixOf_append (x : List Char) (s : Char) (r : List Char) :
    (x ++ [s]).isPrefixOf (x ++ s :: r) = true := by
  rw [List.isPrefixOf_iff_prefix]
  exact ⟨r, by simp⟩

/-- Every physical line of a clean logical-line list is clean. -/
lemma physLines_all_clean (code : Nat) (ec : Option EnhancedCode) :
    ∀ ls, (∀ l ∈ ls, ∀ c ∈ l, c ≠ '\r' ∧ c ≠ '\n') →
      (physLines code ec ls).all lineClean = true := by
  intro ls
  induction ls with
  | nil => intro _; rfl
  | cons l rest ih =>
    intro h
    cases rest with
    | nil =>
      simp only [physLines, List.all_cons, List.all_nil, Bool.and_true]
      exact physLine_clean code ec ' ' l (Or.inl rfl) (h l (List.mem_cons_self _ _))
    | cons l2 r2 =>
      simp only [physLines, List.all_cons, Bool.and_eq_true]
      exact ⟨physLine_clean code ec '-' l (Or.inr rfl) (h l (List.mem_cons_self _ _)),
        by simpa using ih (fun l' hl' => h l' (List.mem_cons_of_mem _ hl'))⟩

/-- `physLines` of a non-empty line list is non-empty. -/
lemma physLines_ne_nil (code : Nat) (ec : Option EnhancedCode) (a : List Char)
    (bs : List (List Char)) : physLines code ec (a :: bs) ≠ [] := by
  cases bs <;> simp [physLines]

/-- The physical lines obey the separator discipline. -/
lemma physLines_sepOk (code : Nat) (ec : Option EnhancedCode) :
    ∀ ls, sepOk code (physLines code ec ls) = true := by
  intro ls
  induction ls with
  | nil => rfl
  | cons l rest ih =>
    cases rest with
    | nil => simp [physLines, sepOk, isPrefixOf_append]
    | cons l2 r2 =>
      rcases hp : physLines code ec (l2 :: r2) with _ | ⟨p, ps⟩
      · exact absurd hp (physLines_ne_nil code ec l2 r2)
      · have ih' := ih
        rw [hp] at ih'
        show sepOk code
          ((natChars code ++ '-' :: (ecodePart ec ++ l)) :: physLines code ec (l2 :: r2)) = true
        rw [hp]
        simp [sepOk, isPrefixOf_append, ih']

/-- C8: every reply constructed through `new_checked` renders as a CRLF-join
of physical lines none of which contains CR or LF (so the only CRs in the
output immediately precede LFs and every physical line ends in CRLF), and
the space separator after the code appears exactly on the last physical
line, earlier ones using the dash separator. -/
theorem C8_reply_rendering (code : Nat) (ec : Option EnhancedCode) (text : List Char)
    (r : Reply) (h : Reply.new_checked code ec text = some r) :
    renderReply r = joinCRLF (physLines r.code r.ecode (rustLines r.text))
    ∧ (physLines r.code r.ecode (rustLines r.text)).all lineClean = true
    ∧ sepOk r.code (physLines r.code r.ecode (rustLines r.text)) = true := by
  have hparse : text.contains '\r' = false ∧ r = ⟨code, ec, text⟩ := by
    unfold Reply.new_checked at h
    split at h
    · exact absurd h (by simp)
    · next hcond =>
      push_neg at hcond
      refine ⟨?_, (Option.some.injEq _ _).mp h.symm⟩
      simpa using hcond.2.2
  obtain ⟨hcr, rfl⟩ := hparse
  have hnotin : '\r' ∉ text := by simpa using hcr
  refine ⟨render_eq_join _ _ _, ?_, physLines_sepOk _ _ _⟩
  apply physLines_all_clean
  intro l hl c hc
  have hmem := rustLines_mem text l hl c hc
  exact ⟨fun hceq => hnotin (hceq ▸ hmem.1), hmem.2⟩

/-- C8, witness: the contract at a concrete two-line reply with an enhanced
code. -/
theorem C8_witness :
    renderReply ⟨250, some ⟨2, 0, 0⟩, "a\nb".toList⟩ =
      joinCRLF (physLines (Reply.mk 250 (some ⟨2, 0, 0⟩) "a\nb".toList).code
        (Reply.mk 250 (some ⟨2, 0, 0⟩) "a\nb".toList).ecode
        (rustLines (Reply.mk 250 (some ⟨2, 0, 0⟩) "a\nb".toList).text))
    ∧ (physLines (Reply.mk 250 (some ⟨2, 0, 0⟩) "a\nb".toList).code
        (Reply.mk 250 (some ⟨2, 0, 0⟩) "a\nb".toList).ecode
        (rustLines (Reply.mk 250 (some ⟨2, 0, 0⟩) "a\nb".toList).text)).all
        lineClean = true
    ∧ sepOk (Reply.mk 250 (some ⟨2, 0, 0⟩) "a\nb".toList).code
        (physLines (Reply.mk 250 (some ⟨2, 0, 0⟩) "a\nb".toList).code
          (Reply.mk 250 (some ⟨2, 0, 0⟩) "a\nb".toList).ecode
          (rustLines (Reply.mk 250 (some ⟨2, 0, 0⟩) "a\nb".toList).text)) = true :=
  C8_reply_rendering 250 (some ⟨2, 0, 0⟩) "a\nb".toList
    ⟨250, some ⟨2, 0, 0⟩, "a\nb".toList⟩ (by decide)

end Smtpbis







